import Mathlib

/-!
Verification of pyipn `constellation.py`.

This file gives a shallow embedding of the constellation geometry engine
(`Constellation`), the satellite state (`Satellite`), the aggregate
(`SatelliteCollection`) and the name-sanitisation helper (`clean_name`)
of `pyipn/constellation.py`, and proves or refutes the specification
claims about them.

Modelling conventions:
* Python floats are modelled by an arbitrary `Field α` (instantiated at `ℚ`
  for executable checks and at `ℝ` where the constant `pi` matters);
  `math.pi` enters the model as an explicit parameter `piv`.
* The two external library calls made by `Satellite._compute_position`
  (the orbital propagator `KeplerianElements.with_altitude` and the frame
  converter `SkyCoord`/`spherical`) are modelled as function parameters
  `with_altitude` and `to_spherical`; the embedding records exactly which
  satellite fields are fed to them, as in the source.
* Code paths that raise in Python (`KeyError` on an unknown body name,
  `ZeroDivisionError`, `ValueError` from `range(0, 360, 0)`) are modelled
  with `Option`: `none` means the construction raises and no object is built.
-/

namespace Pyipn

/-- The `heavenly_body_radius` dictionary (constellation.py lines 18-30);
lookup of a missing key raises `KeyError`, hence `Option`. -/
def heavenly_body_radius {α : Type} [Field α] : String → Option α
  | "earth" => some 6371
  | "luna" => some 1737
  | "mars" => some 3390
  | "venus" => some 6052
  | "mercury" => some 2440
  | "sol" => some 695700
  | "jupiter" => some 69911
  | "saturn" => some 58232
  | "uranus" => some 25362
  | "neptune" => some 24622
  | "pluto" => some 1188
  | _ => none

/-- Python `str.lower()`, applied character-wise to the underlying
character list (the body names in the radius table are ASCII). -/
def str_lower (s : String) : String := String.mk (s.data.map Char.toLower)

/-- State of a `Satellite` object after `Satellite.__init__` has run:
the scalar attributes, the four angles in both the degree and the radian
representation, and the derived position (`_ra`, `_dec`, `_xyz`). -/
structure Satellite (α : Type) where
  name : String
  altitude : α
  eccentricity : α
  true_alt : α
  effective_area : α
  focus : String
  inclination : α
  right_ascension : α
  perigee : α
  ta : α
  inclination_r : α
  right_ascension_r : α
  perigee_r : α
  ta_r : α
  ra : α
  dec : α
  xyz : α × α × α
deriving DecidableEq

/-- `Satellite._convert_to_rads` (lines 498-503), tuple branch (`value=None`):
multiplies the four degree-valued angles by `to_rad = pi / 180`. -/
def convert_to_rads {α : Type} [Field α]
    (piv inclination right_ascension perigee ta : α) : α × α × α × α :=
  let to_rad := piv / 180
  (inclination * to_rad, right_ascension * to_rad, perigee * to_rad, ta * to_rad)

/-- `Satellite._convert_to_degs` (lines 506-512), tuple branch (`value=None`):
multiplies the four radian-valued angles by `to_deg = 180 / pi`. -/
def convert_to_degs {α : Type} [Field α]
    (piv inclination_r right_ascension_r perigee_r ta_r : α) : α × α × α × α :=
  let to_deg := 180 / piv
  (inclination_r * to_deg, right_ascension_r * to_deg, perigee_r * to_deg, ta_r * to_deg)

/-- `Satellite.__init__` (lines 351-390) followed by `_compute_position`
(lines 392-412).  Arguments appear in the source's positional order;
the source's defaults are `effective_area=1.`, `focus="earth"`, `rads=True`
and every call site below passes them explicitly.  `with_altitude` receives
exactly the arguments of `KeplerianElements.with_altitude(altitude*1000, e,
i, arg_pe, raan)` and returns the position vector in meters; `to_spherical`
models the `SkyCoord` spherical conversion of that vector in km. -/
def Satellite.make {α : Type} [Field α] (piv : α)
    (with_altitude : α → α → α → α → α → α × α × α)
    (to_spherical : α → α → α → α × α)
    (name : String)
    (altitude eccentricity inclination right_ascension perigee ta : α)
    (effective_area : α) (focus : String) (rads : Bool) :
    Option (Satellite α) :=
  match heavenly_body_radius (str_lower focus) with
  | none => none
  | some radius =>
    let true_alt := altitude + radius
    let degs_rads : (α × α × α × α) × (α × α × α × α) :=
      if rads then
        (convert_to_degs piv inclination right_ascension perigee ta,
         (inclination, right_ascension, perigee, ta))
      else
        ((inclination, right_ascension, perigee, ta),
         convert_to_rads piv inclination right_ascension perigee ta)
    let degs := degs_rads.1
    let rds := degs_rads.2
    let r := with_altitude (altitude * 1000) eccentricity rds.1 rds.2.2.1 rds.2.1
    let x := r.1 / 1000
    let y := r.2.1 / 1000
    let z := r.2.2 / 1000
    let lonlat := to_spherical x y z
    some { name := name, altitude := altitude, eccentricity := eccentricity,
           true_alt := true_alt, effective_area := effective_area, focus := focus,
           inclination := degs.1, right_ascension := degs.2.1,
           perigee := degs.2.2.1, ta := degs.2.2.2,
           inclination_r := rds.1, right_ascension_r := rds.2.1,
           perigee_r := rds.2.2.1, ta_r := rds.2.2.2,
           ra := lonlat.1, dec := lonlat.2, xyz := (x, y, z) }

/-- The fields of a two-line-element record that `Satellite.from_TLE` reads. -/
structure TLE (α : Type) where
  name : String
  a : α
  ecc : α
  inc : α
  raan : α
  argp : α
deriving DecidableEq

/-- `clean_name` (lines 532-533) on the underlying character list:
`name.replace(' ', '_').replace('(', '').replace(')', '')`. -/
def clean_chars (l : List Char) : List Char :=
  ((l.map (fun c => if c = ' ' then '_' else c)).filter
      (fun c => c ≠ '(')).filter (fun c => c ≠ ')')

/-- `clean_name` (lines 532-533). -/
def clean_name (s : String) : String := String.mk (clean_chars s.data)

/-- `Satellite.from_TLE` (lines 414-427): true anomaly defaults to 0,
angles are passed with `rads=False`, the remaining constructor defaults
(`effective_area=1.`, `focus="earth"`) apply. -/
def Satellite.from_TLE {α : Type} [Field α] (piv : α)
    (with_altitude : α → α → α → α → α → α × α × α)
    (to_spherical : α → α → α → α × α)
    (tle : TLE α) : Option (Satellite α) :=
  Satellite.make piv with_altitude to_spherical (clean_name tle.name)
    tle.a tle.ecc tle.inc tle.raan tle.argp 0 1 "earth" false

/-- `Constellation._corrected_planes` (lines 296-299):
`int(num_sats / num_planes)` on positive integers is floor division, and
`360 * phasing / num_sats` is float division.  Division by zero
(`num_planes = 0` or `num_sats = 0`) is guarded at the call site in
`Constellation.make`. -/
def corrected_planes {α : Type} [Field α] (num_sats num_planes : ℕ) (phasing : α) :
    ℕ × α :=
  (num_sats / num_planes, 360 * phasing / (num_sats : α))

/-- Python `range(0, stop, step)` for a positive `step`. -/
def py_range (stop step : ℕ) : List ℕ :=
  (List.range ((stop + step - 1) / step)).map (fun j => j * step)

/-- `Constellation._perigee_positions` (lines 301-306):
`perigees = list(range(0, 360, int(360/sats_per_plane)))`, then the list is
extended `num_sats` times.  When `int(360 / sats_per_plane) = 0` (that is,
`sats_per_plane > 360`, or `sats_per_plane = 0` where Python raises
`ZeroDivisionError` instead) Python raises and no list is produced. -/
def perigee_positions_calc (num_sats spp : ℕ) : Option (List ℕ) :=
  if 360 / spp = 0 then none
  else
    let perigees := py_range 360 (360 / spp)
    some ((List.replicate num_sats perigees).flatten)

/-- The in-place update loop shared verbatim by `Constellation._calculate_raan`
(lines 308-312) and `Constellation._calculate_ta` (lines 314-318):
start from `[0] * num_sats` and, for `i in range(sats_per_plane, num_sats)`,
set `table[i] = table[i - sats_per_plane] + d`. -/
def plane_fold {α : Type} [Field α] (num_sats spp : ℕ) (d : α) : List α :=
  (List.range' spp (num_sats - spp)).foldl
    (fun l i => l.set i (l.getD (i - spp) 0 + d))
    (List.replicate num_sats 0)

/-- `Constellation._calculate_raan` (lines 308-312): the step is
`360 / num_planes` (float division in the source). -/
def calculate_raan (α : Type) [Field α] (num_sats num_planes spp : ℕ) : List α :=
  plane_fold num_sats spp (360 / (num_planes : α))

/-- `Constellation._calculate_ta` (lines 314-318): the step is the
corrected phasing angle. -/
def calculate_ta (α : Type) [Field α] (num_sats spp : ℕ) (correct_phasing : α) :
    List α :=
  plane_fold num_sats spp correct_phasing

/-- The satellite-construction loop of `Constellation._build_satellites`
(lines 320-327), one `Option` step per loop iteration: a raise inside any
`Satellite(...)` call aborts the whole build. -/
def build_satellites_loop {α : Type} (mk : ℕ → Option (Satellite α)) :
    List ℕ → Option (List (Satellite α))
  | [] => some []
  | i :: rest => do
      let s ← mk i
      let tail ← build_satellites_loop mk rest
      pure (s :: tail)

/-- `Constellation._build_satellites` (lines 320-327): for `i` in
`range(num_sats)` build `Satellite(f"{name}{i + start_num + 1}", altitude, e,
inclination, raan[i], perigee_positions[i], ta[i], focus=focus)`.
Note that the call passes neither `effective_area` (default `1.`) nor `rads`
(default `True`), so the degree-valued tables are handed to a constructor
that interprets them as radians. -/
def build_satellites {α : Type} [Field α] (piv : α)
    (with_altitude : α → α → α → α → α → α × α × α)
    (to_spherical : α → α → α → α × α)
    (num_sats start_num : ℕ) (constellation_name : String)
    (altitude e inclination : α) (raan ta : List α) (all_perigees : List ℕ)
    (focus : String) : Option (List (Satellite α)) :=
  build_satellites_loop
    (fun i => Satellite.make piv with_altitude to_spherical
      (constellation_name ++ toString (i + start_num + 1)) altitude e inclination
      (raan.getD i 0) ((all_perigees.getD i 0 : ℕ) : α) (ta.getD i 0) 1 focus true)
    (List.range num_sats)

/-- State of a `Constellation` object after `Constellation.__init__`
(lines 273-294): the stored parameters (with `focus = "earth"` and
`starting_number = 0` hardcoded) and all derived tables. -/
structure Constellation (α : Type) where
  num_sats : ℕ
  num_planes : ℕ
  phasing : α
  inclination : α
  altitude : α
  e : α
  focus : String
  start_num : ℕ
  constellation_name : String
  sats_per_plane : ℕ
  correct_phasing : α
  perigee_positions : List ℕ
  raan : List α
  ta : List α
  satellites : List (Satellite α)
deriving DecidableEq

/-- `Constellation.__init__` (lines 273-294): fixes `focus = "earth"` and
`starting_number = 0`, computes the derived tables in source order and
builds the satellites.  `none` models any exception escaping `__init__`. -/
def Constellation.make {α : Type} [Field α] (piv : α)
    (with_altitude : α → α → α → α → α → α × α × α)
    (to_spherical : α → α → α → α × α)
    (num_sats num_planes : ℕ) (phasing inclination altitude eccentricity : α)
    (name : String) : Option (Constellation α) :=
  if num_sats = 0 ∨ num_planes = 0 then none
  else
    let focus := "earth"
    let starting_number := 0
    let sp := corrected_planes num_sats num_planes phasing
    match perigee_positions_calc num_sats sp.1 with
    | none => none
    | some all_perigees =>
      let raan := calculate_raan α num_sats num_planes sp.1
      let ta := calculate_ta α num_sats sp.1 sp.2
      match build_satellites piv with_altitude to_spherical num_sats
          starting_number name altitude eccentricity inclination raan ta
          all_perigees focus with
      | none => none
      | some sats =>
        some { num_sats := num_sats, num_planes := num_planes,
               phasing := phasing, inclination := inclination,
               altitude := altitude, e := eccentricity, focus := focus,
               start_num := starting_number, constellation_name := name,
               sats_per_plane := sp.1, correct_phasing := sp.2,
               perigee_positions := all_perigees, raan := raan, ta := ta,
               satellites := sats }

/-- State of a `SatelliteCollection` (lines 33-58): the running counter
`_n_satellites`, the insertion-ordered name-keyed mapping `_satellites`
(an `OrderedDict`, modelled as an association list), and the
`_normal_pointing` flag. -/
structure SatelliteCollection (α : Type) where
  n_satellites : ℕ
  satellites : List (String × Satellite α)
  normal_pointing : Bool
deriving DecidableEq

/-- Python ordered-dict assignment `d[k] = v`: an existing key keeps its
position and gets the new value, a new key is appended at the end. -/
def dict_set {α : Type} (l : List (String × Satellite α)) (k : String)
    (v : Satellite α) : List (String × Satellite α) :=
  if l.any (fun p => p.1 = k) then
    l.map (fun p => if p.1 = k then (k, v) else p)
  else l ++ [(k, v)]

/-- `SatelliteCollection.add_satellite` (lines 96-108): stores the satellite
under its name and unconditionally increments `_n_satellites`, also when the
assignment overwrote an existing entry. -/
def SatelliteCollection.add_satellite {α : Type} (c : SatelliteCollection α)
    (sat : Satellite α) : SatelliteCollection α :=
  { c with satellites := dict_set c.satellites sat.name sat,
           n_satellites := c.n_satellites + 1 }

/-- `SatelliteCollection.__init__` (lines 34-58): starts from an empty
mapping and a zero counter, adds the argument satellites one by one, then
resets `_n_satellites` to `len(self._satellites)` and stores the
`normal_pointing` flag. -/
def SatelliteCollection.make {α : Type} (sats : List (Satellite α))
    (normal_pointing : Bool) : SatelliteCollection α :=
  let c := sats.foldl (fun acc s => SatelliteCollection.add_satellite acc s)
    ({ n_satellites := 0, satellites := [],
       normal_pointing := normal_pointing } : SatelliteCollection α)
  { c with n_satellites := c.satellites.length }

/-- The loop of `SatelliteCollection.from_tle_file` (lines 84-92) building
one satellite per TLE record. -/
def from_tle_loop {α : Type} [Field α] (piv : α)
    (with_altitude : α → α → α → α → α → α × α × α)
    (to_spherical : α → α → α → α × α) :
    List (TLE α) → Option (List (Satellite α))
  | [] => some []
  | t :: rest => do
      let s ← Satellite.from_TLE piv with_altitude to_spherical t
      let tail ← from_tle_loop piv with_altitude to_spherical rest
      pure (s :: tail)

/-- `SatelliteCollection.from_tle_file` (lines 71-93): builds the satellites
and returns `cls(*sats)` - its `normal_pointing` parameter is accepted but
never forwarded, so the collection is built with the constructor default
`normal_pointing=False`. -/
def SatelliteCollection.from_tle_file {α : Type} [Field α] (piv : α)
    (with_altitude : α → α → α → α → α → α × α × α)
    (to_spherical : α → α → α → α × α)
    (tles : List (TLE α)) (normal_pointing : Bool) :
    Option (SatelliteCollection α) :=
  (from_tle_loop piv with_altitude to_spherical tles).map
    (fun sats => SatelliteCollection.make sats false)

/-- The `grb` sub-dictionary of `SatelliteCollection.as_dict`
(lines 162-172). -/
structure GrbDict (α : Type) where
  ra : α
  dec : α
  distance : α
  K : α
  t_rise : α
  t_decay : α
deriving DecidableEq

/-- The `pointing` sub-dictionary of a detector entry (lines 183-189). -/
structure Pointing (α : Type) where
  ra : α
  dec : α
deriving DecidableEq

/-- One detector entry of `SatelliteCollection.as_dict` (lines 176-193). -/
structure SatDict (α : Type) where
  ra : α
  dec : α
  altitude : α
  time : String
  pointing : Pointing α
  effective_area : α
deriving DecidableEq

/-- The full mapping returned by `SatelliteCollection.as_dict`
(lines 149-197). -/
structure GroupDict (α : Type) where
  seed : ℕ
  grb : GrbDict α
  detectors : List (String × SatDict α)
deriving DecidableEq

/-- `SatelliteCollection.as_dict` (lines 149-197): fixed seed 1234, the
default GRB descriptor when none is supplied, and one detector entry per
satellite whose `pointing` is the satellite's own `(ra, dec)` when
`_normal_pointing` is set and the fixed `{ra: 80, dec: -30}` otherwise. -/
def SatelliteCollection.as_dict {α : Type} [Field α] (c : SatelliteCollection α)
    (grb_dict : Option (GrbDict α)) : GroupDict α :=
  let grb : GrbDict α :=
    match grb_dict with
    | none => { ra := 80, dec := -30, distance := 500, K := 500,
                t_rise := 1, t_decay := 7 }
    | some g => g
  { seed := 1234
    grb := grb
    detectors := c.satellites.map (fun p =>
      (p.1,
       { ra := p.2.ra, dec := p.2.dec, altitude := p.2.altitude,
         time := "2010-01-01T00:00:00",
         pointing := if c.normal_pointing then { ra := p.2.ra, dec := p.2.dec }
                     else { ra := 80, dec := -30 },
         effective_area := p.2.effective_area })) }

/-! ## Helper lemmas -/

lemma clean_chars_no_special (l : List Char) :
    ∀ c ∈ clean_chars l, c ≠ ' ' ∧ c ≠ '(' ∧ c ≠ ')' := by
  intro c hc
  simp only [clean_chars, List.mem_filter, List.mem_map, decide_eq_true_eq] at hc
  obtain ⟨⟨⟨a, _, ha⟩, h1⟩, h2⟩ := hc
  refine ⟨?_, h1, h2⟩
  intro hsp
  by_cases hA : a = ' '
  · rw [if_pos hA] at ha
    rw [← ha] at hsp
    exact absurd hsp (by decide)
  · rw [if_neg hA] at ha
    exact hA (ha.trans hsp)

lemma clean_chars_fixed (l : List Char)
    (h : ∀ c ∈ l, c ≠ ' ' ∧ c ≠ '(' ∧ c ≠ ')') : clean_chars l = l := by
  induction l with
  | nil => rfl
  | cons a as ih =>
    obtain ⟨h1, h2, h3⟩ := h a (List.mem_cons_self a as)
    have ih2 := ih (fun c hc => h c (List.mem_cons_of_mem a hc))
    simp only [clean_chars, List.map_cons, if_neg h1] at ih2 ⊢
    rw [List.filter_cons_of_pos (by simpa using h2),
        List.filter_cons_of_pos (by simpa using h3)]
    exact congrArg (a :: ·) ih2

lemma foldl_add_satellite_normal_pointing {α : Type} (sats : List (Satellite α))
    (acc : SatelliteCollection α) :
    (sats.foldl (fun a s => SatelliteCollection.add_satellite a s)
        acc).normal_pointing = acc.normal_pointing := by
  induction sats generalizing acc with
  | nil => rfl
  | cons s rest ih =>
    rw [List.foldl_cons, ih]
    rfl

lemma make_normal_pointing {α : Type} (sats : List (Satellite α)) (np : Bool) :
    (SatelliteCollection.make sats np).normal_pointing = np := by
  simp only [SatelliteCollection.make]
  rw [foldl_add_satellite_normal_pointing]

/-! ## Claim theorems (first batch) -/

/-- C7: name sanitisation is idempotent, and `clean_name "ISS (ZARYA)"` is
`"ISS_ZARYA"` (spaces become underscores, parentheses are removed). -/
theorem C7_clean_name_idempotent :
    (∀ s : String, clean_name (clean_name s) = clean_name s) ∧
    clean_name ("ISS (ZARYA)") = "ISS_ZARYA" := by
  constructor
  · intro s
    show String.mk (clean_chars (clean_chars s.data)) = String.mk (clean_chars s.data)
    exact congrArg String.mk (clean_chars_fixed _ (clean_chars_no_special s.data))
  · decide

lemma raan_table_6_2 :
    calculate_raan ℚ 6 2 (corrected_planes 6 2 (1 : ℚ)).1 =
      [0, 0, 0, 180, 180, 180] := by
  norm_num [calculate_raan, plane_fold, corrected_planes, List.range']
  rfl

lemma ta_table_6_2_1 :
    calculate_ta ℚ 6 (corrected_planes 6 2 (1 : ℚ)).1
        (corrected_planes 6 2 (1 : ℚ)).2 = [0, 0, 0, 60, 60, 60] := by
  norm_num [calculate_ta, plane_fold, corrected_planes, List.range']
  rfl

/-- C2 as frozen is false on the code: for num_sats=6, num_planes=2,
phasing=1 the `_calculate_ta` recurrence gives the table [0,0,0,60,60,60],
not the claimed [0,60,120,0,60,120]. -/
theorem C2_counterexample :
    ¬ ((corrected_planes 6 2 (1 : ℚ)).1 = 3 ∧
       (corrected_planes 6 2 (1 : ℚ)).2 = 60 ∧
       calculate_raan ℚ 6 2 (corrected_planes 6 2 (1 : ℚ)).1 =
         [0, 0, 0, 180, 180, 180] ∧
       calculate_ta ℚ 6 (corrected_planes 6 2 (1 : ℚ)).1
           (corrected_planes 6 2 (1 : ℚ)).2 = [0, 60, 120, 0, 60, 120]) := by
  intro h
  have hta := h.2.2.2
  rw [ta_table_6_2_1] at hta
  norm_num at hta

/-- C2 (amended): for num_sats=6, num_planes=2, phasing=1 the derived
per-plane count is 3, the corrected phasing is 60 degrees, the RAAN table is
[0,0,0,180,180,180], and the true-anomaly table is [0,0,0,60,60,60]
(constant within a plane, advancing by one phasing step per plane). -/
theorem C2_scenario_tables :
    (corrected_planes 6 2 (1 : ℚ)).1 = 3 ∧
    (corrected_planes 6 2 (1 : ℚ)).2 = 60 ∧
    calculate_raan ℚ 6 2 (corrected_planes 6 2 (1 : ℚ)).1 =
      [0, 0, 0, 180, 180, 180] ∧
    calculate_ta ℚ 6 (corrected_planes 6 2 (1 : ℚ)).1
        (corrected_planes 6 2 (1 : ℚ)).2 = [0, 0, 0, 60, 60, 60] :=
  ⟨rfl, by norm_num [corrected_planes], raan_table_6_2, ta_table_6_2_1⟩

/-- A concrete satellite value used in executable checks of the
collection-level operations (which read only the `name` field). -/
def sample_sat : Satellite ℚ :=
  { name := "det1", altitude := 550, eccentricity := 0, true_alt := 6921,
    effective_area := 1, focus := "earth", inclination := 53,
    right_ascension := 0, perigee := 0, ta := 0, inclination_r := 1,
    right_ascension_r := 0, perigee_r := 0, ta_r := 0, ra := 80, dec := -30,
    xyz := (0, 0, 0) }

/-- C4 is violated by the code: `add_satellite` increments `_n_satellites`
even when the satellite's name already keys an entry, so adding the same
name twice leaves the mapping with one entry but the counter at two. -/
theorem C4_count_invariant_violated :
    (((SatelliteCollection.make ([] : List (Satellite ℚ))
          false).add_satellite sample_sat).add_satellite
        sample_sat).n_satellites = 2 ∧
    (((SatelliteCollection.make ([] : List (Satellite ℚ))
          false).add_satellite sample_sat).add_satellite
        sample_sat).satellites.length = 1 := by
  decide

/-- C8: every detector entry exported by `as_dict` carries the satellite's
own (ra, dec) as pointing when `_normal_pointing` is set and the fixed
shared direction (ra 80, dec -30) otherwise. -/
theorem C8_pointing {α : Type} [Field α] (c : SatelliteCollection α)
    (grb_dict : Option (GrbDict α)) (n : String) (sat : Satellite α)
    (h : (n, sat) ∈ c.satellites) :
    ((n, { ra := sat.ra, dec := sat.dec, altitude := sat.altitude,
           time := "2010-01-01T00:00:00",
           pointing := if c.normal_pointing then { ra := sat.ra, dec := sat.dec }
                       else { ra := 80, dec := -30 },
           effective_area := sat.effective_area }) : String × SatDict α)
      ∈ (c.as_dict grb_dict).detectors := by
  simp only [SatelliteCollection.as_dict]
  exact List.mem_map_of_mem _ h

/-- Witness for C8 at a concrete one-satellite collection with
nadir-pointing enabled. -/
theorem C8_pointing_witness :
    ("det1", sample_sat) ∈
      (SatelliteCollection.make [sample_sat] true).satellites ∧
    ((("det1",
       { ra := sample_sat.ra, dec := sample_sat.dec,
         altitude := sample_sat.altitude, time := "2010-01-01T00:00:00",
         pointing :=
           if (SatelliteCollection.make [sample_sat] true).normal_pointing then
             { ra := sample_sat.ra, dec := sample_sat.dec }
           else { ra := 80, dec := -30 },
         effective_area := sample_sat.effective_area }) : String × SatDict ℚ)
      ∈ ((SatelliteCollection.make [sample_sat] true).as_dict none).detectors) :=
  ⟨by decide,
   C8_pointing (SatelliteCollection.make [sample_sat] true) none ("det1")
     sample_sat (by decide)⟩

/-- C10: `from_tle_file` never forwards its `normal_pointing` argument, so
the resulting collection always has `_normal_pointing = False` and its
export always uses the fixed shared pointing direction. -/
theorem C10_from_tle_file_ignores_pointing {α : Type} [Field α] (piv : α)
    (with_altitude : α → α → α → α → α → α × α × α)
    (to_spherical : α → α → α → α × α)
    (tles : List (TLE α)) (normal_pointing : Bool) (c : SatelliteCollection α)
    (h : SatelliteCollection.from_tle_file piv with_altitude to_spherical tles
        normal_pointing = some c) :
    c.normal_pointing = false ∧
    ∀ (g : Option (GrbDict α)) (p : String × SatDict α),
      p ∈ (c.as_dict g).detectors →
      p.2.pointing = ({ ra := 80, dec := -30 } : Pointing α) := by
  simp only [SatelliteCollection.from_tle_file, Option.map_eq_some'] at h
  obtain ⟨sats, _, hc⟩ := h
  have hnp : c.normal_pointing = false := by
    rw [← hc]; exact make_normal_pointing sats false
  refine ⟨hnp, ?_⟩
  intro g p hp
  simp only [SatelliteCollection.as_dict, List.mem_map] at hp
  obtain ⟨q, _, hq⟩ := hp
  rw [← hq]
  simp [hnp]

/-- Witness for C10 at the empty TLE list with normal_pointing requested. -/
theorem C10_witness :
    SatelliteCollection.from_tle_file (0 : ℚ) (fun _ _ _ _ _ => (0, 0, 0))
        (fun _ _ _ => (0, 0)) [] true =
      some (SatelliteCollection.make [] false) ∧
    ((SatelliteCollection.make ([] : List (Satellite ℚ))
        false).normal_pointing = false ∧
     ∀ (g : Option (GrbDict ℚ)) (p : String × SatDict ℚ),
       p ∈ ((SatelliteCollection.make ([] : List (Satellite ℚ))
           false).as_dict g).detectors →
       p.2.pointing = ({ ra := 80, dec := -30 } : Pointing ℚ)) :=
  ⟨rfl,
   C10_from_tle_file_ignores_pointing (0 : ℚ) (fun _ _ _ _ _ => (0, 0, 0))
     (fun _ _ _ => (0, 0)) [] true (SatelliteCollection.make [] false) rfl⟩

/-- C9: the position computation never reads the true anomaly - two
satellites built with the same altitude, eccentricity, inclination, RAAN,
argument of perigee and focus but different true anomalies get identical
Cartesian positions and sky coordinates. -/
theorem C9_position_independent_of_ta {α : Type} [Field α] (piv : α)
    (with_altitude : α → α → α → α → α → α × α × α)
    (to_spherical : α → α → α → α × α)
    (name name2 : String)
    (altitude eccentricity inclination right_ascension perigee : α)
    (effective_area : α) (focus : String) (rads : Bool) (ta ta2 : α)
    (s s2 : Satellite α)
    (hne : ta ≠ ta2)
    (h : Satellite.make piv with_altitude to_spherical name altitude
        eccentricity inclination right_ascension perigee ta effective_area
        focus rads = some s)
    (h2 : Satellite.make piv with_altitude to_spherical name2 altitude
        eccentricity inclination right_ascension perigee ta2 effective_area
        focus rads = some s2) :
    s.xyz = s2.xyz ∧ s.ra = s2.ra ∧ s.dec = s2.dec := by
  rcases hr : (heavenly_body_radius (str_lower focus) : Option α) with _ | radius
  · rw [Satellite.make, hr] at h
    exact absurd h (by simp)
  · rw [Satellite.make, hr] at h
    rw [Satellite.make, hr] at h2
    cases rads
    · simp only [Bool.false_eq_true, if_false, Option.some.injEq,
        convert_to_rads] at h h2
      rw [← h, ← h2]
      exact ⟨rfl, rfl, rfl⟩
    · simp only [if_true, Option.some.injEq] at h h2
      rw [← h, ← h2]
      exact ⟨rfl, rfl, rfl⟩

/-- A concrete satellite (true anomaly 1) for the C9 witness. -/
def c9_sat_a : Satellite ℚ :=
  (Satellite.make (0 : ℚ) (fun _ _ _ _ _ => (0, 0, 0)) (fun _ _ _ => (0, 0))
      "a" 550 0 53 10 20 1 1 "earth" true).getD sample_sat

/-- A concrete satellite (true anomaly 2) for the C9 witness. -/
def c9_sat_b : Satellite ℚ :=
  (Satellite.make (0 : ℚ) (fun _ _ _ _ _ => (0, 0, 0)) (fun _ _ _ => (0, 0))
      "b" 550 0 53 10 20 2 1 "earth" true).getD sample_sat

/-- Witness for C9 at two concrete satellites differing only in true
anomaly. -/
theorem C9_witness :
    (1 : ℚ) ≠ 2 ∧
    Satellite.make (0 : ℚ) (fun _ _ _ _ _ => (0, 0, 0)) (fun _ _ _ => (0, 0))
        "a" 550 0 53 10 20 1 1 "earth" true = some c9_sat_a ∧
    Satellite.make (0 : ℚ) (fun _ _ _ _ _ => (0, 0, 0)) (fun _ _ _ => (0, 0))
        "b" 550 0 53 10 20 2 1 "earth" true = some c9_sat_b ∧
    (c9_sat_a.xyz = c9_sat_b.xyz ∧ c9_sat_a.ra = c9_sat_b.ra ∧
     c9_sat_a.dec = c9_sat_b.dec) :=
  ⟨by norm_num, rfl, rfl,
   C9_position_independent_of_ta (0 : ℚ) (fun _ _ _ _ _ => (0, 0, 0))
     (fun _ _ _ => (0, 0)) "a" "b" 550 0 53 10 20 1 "earth" true 1 2
     c9_sat_a c9_sat_b (by norm_num) rfl rfl⟩

/-! ## The closed form of the plane-recurrence tables -/

lemma plane_fold_loop_spec {α : Type} [Field α] (d : α) (spp : ℕ) (h1 : 1 ≤ spp) :
    ∀ (k m : ℕ) (l : List α), spp ≤ m → m + k ≤ l.length →
      (∀ i, i < m → l.getD i 0 = ((i / spp : ℕ) : α) * d) →
      (∀ i, m ≤ i → l.getD i 0 = 0) →
      (((List.range' m k).foldl
          (fun l2 i => l2.set i (l2.getD (i - spp) 0 + d)) l).length = l.length ∧
       ∀ i, i < m + k →
         ((List.range' m k).foldl
             (fun l2 i => l2.set i (l2.getD (i - spp) 0 + d)) l).getD i 0 =
           ((i / spp : ℕ) : α) * d) := by
  intro k
  induction k with
  | zero =>
    intro m l _ _ hlow _
    rw [List.range'_zero, List.foldl_nil]
    exact ⟨rfl, fun i hi => hlow i (by omega)⟩
  | succ n ih =>
    intro m l hm hlen hlow hhigh
    rw [List.range'_succ, List.foldl_cons]
    have hmlt : m < l.length := by omega
    have hsub : m - spp < m := by omega
    have hdiv : m / spp = (m - spp) / spp + 1 := Nat.div_eq_sub_div (by omega) hm
    have hsetval :
        (l.set m (l.getD (m - spp) 0 + d)).getD m 0 = ((m / spp : ℕ) : α) * d := by
      rw [List.getD_eq_getElem?_getD, List.getElem?_set_eq_of_lt _ hmlt,
          Option.getD_some, hlow _ hsub, hdiv]
      push_cast
      ring
    have hkeep : ∀ i, i ≠ m →
        (l.set m (l.getD (m - spp) 0 + d)).getD i 0 = l.getD i 0 := by
      intro i hi
      rw [List.getD_eq_getElem?_getD, List.getElem?_set_ne (fun hh => hi hh.symm),
          ← List.getD_eq_getElem?_getD]
    have hres := ih (m + 1) (l.set m (l.getD (m - spp) 0 + d)) (by omega)
      (by rw [List.length_set]; omega)
      (by
        intro i hi
        rcases Nat.lt_succ_iff_lt_or_eq.mp hi with hi2 | hi2
        · rw [hkeep i (by omega)]
          exact hlow i hi2
        · rw [hi2]
          exact hsetval)
      (by
        intro i hi
        rw [hkeep i (by omega)]
        exact hhigh i (by omega))
    refine ⟨hres.1.trans (List.length_set ..), ?_⟩
    intro i hi
    exact hres.2 i (by omega)

lemma getD_replicate_zero {α : Type} [Field α] (n i : ℕ) :
    (List.replicate n (0 : α)).getD i 0 = 0 := by
  rw [List.getD_eq_getElem?_getD, List.getElem?_replicate]
  split <;> rfl

lemma plane_fold_length {α : Type} [Field α] (num_sats spp : ℕ) (d : α)
    (h1 : 1 ≤ spp) (hle : spp ≤ num_sats) :
    (plane_fold num_sats spp d).length = num_sats := by
  have h := (plane_fold_loop_spec d spp h1 (num_sats - spp) spp
    (List.replicate num_sats (0 : α)) le_rfl (by simp; omega)
    (fun i hi => by
      rw [getD_replicate_zero, Nat.div_eq_of_lt hi]
      simp)
    (fun i _ => getD_replicate_zero num_sats i)).1
  rw [plane_fold, h, List.length_replicate]

lemma plane_fold_getD {α : Type} [Field α] (num_sats spp : ℕ) (d : α)
    (h1 : 1 ≤ spp) (hle : spp ≤ num_sats) :
    ∀ i, i < num_sats →
      (plane_fold num_sats spp d).getD i 0 = ((i / spp : ℕ) : α) * d := by
  intro i hi
  have h := (plane_fold_loop_spec d spp h1 (num_sats - spp) spp
    (List.replicate num_sats (0 : α)) le_rfl (by simp; omega)
    (fun j hj => by
      rw [getD_replicate_zero, Nat.div_eq_of_lt hj]
      simp)
    (fun j _ => getD_replicate_zero num_sats j)).2
  exact h i (by omega)

/-! ## Success and shape of the satellite build -/

lemma satellite_make_earth_rads_true {α : Type} [Field α] (piv : α)
    (with_altitude : α → α → α → α → α → α × α × α)
    (to_spherical : α → α → α → α × α)
    (name : String) (altitude eccentricity inclination right_ascension perigee
      ta effective_area : α) :
    Satellite.make piv with_altitude to_spherical name altitude eccentricity
        inclination right_ascension perigee ta effective_area ("earth") true =
      some { name := name, altitude := altitude, eccentricity := eccentricity,
             true_alt := altitude + 6371, effective_area := effective_area,
             focus := "earth",
             inclination := inclination * (180 / piv),
             right_ascension := right_ascension * (180 / piv),
             perigee := perigee * (180 / piv), ta := ta * (180 / piv),
             inclination_r := inclination, right_ascension_r := right_ascension,
             perigee_r := perigee, ta_r := ta,
             ra := (to_spherical
               ((with_altitude (altitude * 1000) eccentricity inclination
                   perigee right_ascension).1 / 1000)
               ((with_altitude (altitude * 1000) eccentricity inclination
                   perigee right_ascension).2.1 / 1000)
               ((with_altitude (altitude * 1000) eccentricity inclination
                   perigee right_ascension).2.2 / 1000)).1,
             dec := (to_spherical
               ((with_altitude (altitude * 1000) eccentricity inclination
                   perigee right_ascension).1 / 1000)
               ((with_altitude (altitude * 1000) eccentricity inclination
                   perigee right_ascension).2.1 / 1000)
               ((with_altitude (altitude * 1000) eccentricity inclination
                   perigee right_ascension).2.2 / 1000)).2,
             xyz := ((with_altitude (altitude * 1000) eccentricity inclination
                 perigee right_ascension).1 / 1000,
               (with_altitude (altitude * 1000) eccentricity inclination
                 perigee right_ascension).2.1 / 1000,
               (with_altitude (altitude * 1000) eccentricity inclination
                 perigee right_ascension).2.2 / 1000) } := rfl

lemma build_satellites_loop_spec {α : Type} (mk : ℕ → Option (Satellite α))
    (idxs : List ℕ) (hmk : ∀ i ∈ idxs, (mk i).isSome) :
    ∃ sats, build_satellites_loop mk idxs = some sats ∧
      sats.length = idxs.length ∧
      ∀ k (hk : k < idxs.length) (hk2 : k < sats.length),
        mk (idxs.get ⟨k, hk⟩) = some (sats.get ⟨k, hk2⟩) := by
  induction idxs with
  | nil =>
    exact ⟨[], rfl, rfl, fun k hk => absurd hk (by simp)⟩
  | cons i rest ih =>
    obtain ⟨s, hs⟩ :=
      Option.isSome_iff_exists.mp (hmk i (List.mem_cons_self i rest))
    obtain ⟨tail, htail, hlen, hget⟩ :=
      ih (fun j hj => hmk j (List.mem_cons_of_mem i hj))
    refine ⟨s :: tail, ?_, by simp [hlen], ?_⟩
    · simp [build_satellites_loop, hs, htail]
    · intro k hk hk2
      match k with
      | 0 => exact hs
      | Nat.succ k2 => exact hget k2 (by simpa using hk) (by simpa using hk2)

/-! ## The perigee table -/

lemma py_range_length_pos (step : ℕ) (h1 : 1 ≤ step) :
    1 ≤ (py_range 360 step).length := by
  simp only [py_range, List.length_map, List.length_range]
  rw [Nat.one_le_div_iff (by omega)]
  omega

lemma flatten_replicate_getD (l : List ℕ) (hl : 1 ≤ l.length) :
    ∀ (n i : ℕ), i < n * l.length →
      ((List.replicate n l).flatten).getD i 0 = l.getD (i % l.length) 0 := by
  intro n
  induction n with
  | zero => intro i hi; omega
  | succ m ih =>
    intro i hi
    rw [Nat.succ_mul] at hi
    rw [List.replicate_succ, List.flatten_cons]
    by_cases hcase : i < l.length
    · rw [List.getD_append _ _ _ _ hcase, Nat.mod_eq_of_lt hcase]
    · rw [List.getD_append_right _ _ _ _ (by omega)]
      have hmod : (i - l.length) % l.length = i % l.length := by
        conv_rhs => rw [show i = i - l.length + 1 * l.length by omega]
        rw [Nat.add_mul_mod_self_right]
      rw [ih (i - l.length) (by omega), hmod]

/-- Central description of a successful `Constellation.__init__` run: under
the conditions that avoid the Python exceptions (positive counts and a
per-plane count of at most 360) the constructor returns a constellation
carrying the derived tables, and builds exactly `num_sats` satellites where
satellite `k` is `Satellite(f"{name}{k+0+1}", altitude, e, inclination,
raan[k], perigee_positions[k], ta[k], focus="earth")` with `rads` left at
its default `True`. -/
lemma constellation_make_spec {α : Type} [Field α] (piv : α)
    (with_altitude : α → α → α → α → α → α × α × α)
    (to_spherical : α → α → α → α × α)
    (num_sats num_planes : ℕ) (phasing inclination altitude eccentricity : α)
    (name : String)
    (h0 : num_sats ≠ 0) (h1 : num_planes ≠ 0)
    (hspp1 : 1 ≤ num_sats / num_planes) (hspp2 : num_sats / num_planes ≤ 360) :
    ∃ c : Constellation α,
      Constellation.make piv with_altitude to_spherical num_sats num_planes
          phasing inclination altitude eccentricity name = some c ∧
      c.sats_per_plane = num_sats / num_planes ∧
      c.correct_phasing = 360 * phasing / (num_sats : α) ∧
      c.perigee_positions =
        (List.replicate num_sats
          (py_range 360 (360 / (num_sats / num_planes)))).flatten ∧
      c.raan = calculate_raan α num_sats num_planes (num_sats / num_planes) ∧
      c.ta = calculate_ta α num_sats (num_sats / num_planes)
        (360 * phasing / (num_sats : α)) ∧
      c.satellites.length = num_sats ∧
      ∀ k (hk2 : k < c.satellites.length),
        Satellite.make piv with_altitude to_spherical
          (name ++ toString (k + 0 + 1)) altitude eccentricity inclination
          (c.raan.getD k 0) ((c.perigee_positions.getD k 0 : ℕ) : α)
          (c.ta.getD k 0) 1 "earth" true = some (c.satellites.get ⟨k, hk2⟩) := by
  have hstep : ¬ (360 / (num_sats / num_planes) = 0) := by
    have := (Nat.one_le_div_iff (show 0 < num_sats / num_planes by omega)).mpr
      hspp2
    omega
  have hper : perigee_positions_calc num_sats (num_sats / num_planes) =
      some ((List.replicate num_sats
        (py_range 360 (360 / (num_sats / num_planes)))).flatten) := by
    rw [perigee_positions_calc, if_neg hstep]
  obtain ⟨sats, hsats, hslen, hsget⟩ := build_satellites_loop_spec
    (fun i => Satellite.make piv with_altitude to_spherical
      (name ++ toString (i + 0 + 1)) altitude eccentricity inclination
      ((calculate_raan α num_sats num_planes (num_sats / num_planes)).getD i 0)
      (((((List.replicate num_sats
          (py_range 360 (360 / (num_sats / num_planes)))).flatten).getD
            i 0 : ℕ) : α))
      ((calculate_ta α num_sats (num_sats / num_planes)
          (360 * phasing / (num_sats : α))).getD i 0)
      1 "earth" true)
    (List.range num_sats)
    (fun i _ => by simp only [satellite_make_earth_rads_true, Option.isSome_some])
  have hbuild : build_satellites piv with_altitude to_spherical num_sats 0 name
      altitude eccentricity inclination
      (calculate_raan α num_sats num_planes (num_sats / num_planes))
      (calculate_ta α num_sats (num_sats / num_planes)
        (360 * phasing / (num_sats : α)))
      ((List.replicate num_sats
        (py_range 360 (360 / (num_sats / num_planes)))).flatten)
      "earth" = some sats := hsats
  refine ⟨{ num_sats := num_sats, num_planes := num_planes, phasing := phasing,
            inclination := inclination, altitude := altitude,
            e := eccentricity, focus := "earth", start_num := 0,
            constellation_name := name,
            sats_per_plane := num_sats / num_planes,
            correct_phasing := 360 * phasing / (num_sats : α),
            perigee_positions := (List.replicate num_sats
              (py_range 360 (360 / (num_sats / num_planes)))).flatten,
            raan := calculate_raan α num_sats num_planes
              (num_sats / num_planes),
            ta := calculate_ta α num_sats (num_sats / num_planes)
              (360 * phasing / (num_sats : α)),
            satellites := sats },
         ?_, rfl, rfl, rfl, rfl, rfl, by simpa using hslen, ?_⟩
  · simp only [Constellation.make, corrected_planes]
    rw [if_neg (by push_neg; exact ⟨h0, h1⟩)]
    simp only [hper, hbuild]
  · intro k hk2
    have hk : k < (List.range num_sats).length := by
      simpa using hk2.trans_le (le_of_eq hslen)
    have h2 := hsget k hk hk2
    simpa using h2

/-! ## Claim theorems (second batch) -/

/-- C3 as frozen is false on the code: for num_sats=361, num_planes=1 (which
satisfy num_sats >= 1, num_planes >= 1 and num_sats % num_planes == 0) the
spacing step `int(360 / sats_per_plane)` is 0, `range(0, 360, 0)` raises
`ValueError`, and no satellite is produced. -/
theorem C3_counterexample :
    Constellation.make (0 : ℚ) (fun _ _ _ _ _ => (0, 0, 0))
      (fun _ _ _ => (0, 0)) 361 1 1 53 550 0 "det" = none := rfl

/-- C3 (amended): for every num_sats >= 1 and num_planes >= 1 with
num_sats % num_planes == 0 and additionally sats_per_plane =
num_sats / num_planes <= 360 (so that the spacing step is nonzero and the
construction does not raise), the Constellation produces exactly num_sats
satellites, the RAAN table is constant on each group of sats_per_plane
consecutive slots, and each plane's shared RAAN exceeds the previous
plane's by exactly 360/num_planes degrees. -/
theorem C3_raan_structure {α : Type} [Field α] (piv : α)
    (with_altitude : α → α → α → α → α → α × α × α)
    (to_spherical : α → α → α → α × α)
    (num_sats num_planes : ℕ) (phasing inclination altitude eccentricity : α)
    (name : String)
    (h1 : 1 ≤ num_sats) (h2 : 1 ≤ num_planes) (h3 : num_sats % num_planes = 0)
    (h4 : num_sats / num_planes ≤ 360) :
    ∃ c : Constellation α,
      Constellation.make piv with_altitude to_spherical num_sats num_planes
          phasing inclination altitude eccentricity name = some c ∧
      c.satellites.length = num_sats ∧
      (∀ p j j2, p < num_planes → j < c.sats_per_plane →
        j2 < c.sats_per_plane →
        c.raan.getD (p * c.sats_per_plane + j) 0 =
          c.raan.getD (p * c.sats_per_plane + j2) 0) ∧
      (∀ p, p + 1 < num_planes →
        c.raan.getD ((p + 1) * c.sats_per_plane) 0 =
          c.raan.getD (p * c.sats_per_plane) 0 + 360 / (num_planes : α)) := by
  have hdvd : num_planes ∣ num_sats := Nat.dvd_of_mod_eq_zero h3
  have hple : num_planes ≤ num_sats := Nat.le_of_dvd (by omega) hdvd
  have hspp1 : 1 ≤ num_sats / num_planes :=
    (Nat.one_le_div_iff (by omega)).mpr hple
  obtain ⟨c, hmk, hspp, hphase, hper, hraan, hta, hlen, hsat⟩ :=
    constellation_make_spec piv with_altitude to_spherical num_sats num_planes
      phasing inclination altitude eccentricity name (by omega) (by omega)
      hspp1 h4
  have hmul : (num_sats / num_planes) * num_planes = num_sats :=
    Nat.div_mul_cancel hdvd
  have hclosed : ∀ i, i < num_sats →
      c.raan.getD i 0 =
        ((i / (num_sats / num_planes) : ℕ) : α) * (360 / (num_planes : α)) := by
    intro i hi
    rw [hraan, calculate_raan]
    exact plane_fold_getD num_sats (num_sats / num_planes) _ hspp1
      (Nat.div_le_self _ _) i hi
  have hbound : ∀ q, q < num_planes →
      q * (num_sats / num_planes) + (num_sats / num_planes) ≤ num_sats := by
    intro q hq
    have hq1 : q + 1 ≤ num_planes := hq
    calc q * (num_sats / num_planes) + (num_sats / num_planes)
        = (q + 1) * (num_sats / num_planes) := by ring
      _ ≤ num_planes * (num_sats / num_planes) :=
          Nat.mul_le_mul_right _ hq1
      _ = num_sats := by rw [mul_comm]; exact hmul
  have hdivp : ∀ q j2, j2 < num_sats / num_planes →
      (q * (num_sats / num_planes) + j2) / (num_sats / num_planes) = q := by
    intro q j2 hj2
    rw [mul_comm, Nat.mul_add_div (by omega), Nat.div_eq_of_lt hj2]
    omega
  refine ⟨c, hmk, hlen, ?_, ?_⟩
  · intro p j j2 hp hj hj2
    rw [hspp] at hj hj2 ⊢
    have hb1 : p * (num_sats / num_planes) + j < num_sats :=
      lt_of_lt_of_le (by omega) (hbound p hp)
    have hb2 : p * (num_sats / num_planes) + j2 < num_sats :=
      lt_of_lt_of_le (by omega) (hbound p hp)
    rw [hclosed _ hb1, hclosed _ hb2, hdivp p j hj, hdivp p j2 hj2]
  · intro p hp
    rw [hspp]
    have hb1 : (p + 1) * (num_sats / num_planes) < num_sats := by
      have := hbound (p + 1) hp
      have h5 : (p + 1) * (num_sats / num_planes) +
          (num_sats / num_planes) ≤ num_sats := this
      omega
    have hb2 : p * (num_sats / num_planes) < num_sats := by
      have := hbound p (by omega)
      omega
    have e1 : ((p + 1) * (num_sats / num_planes)) /
        (num_sats / num_planes) = p + 1 := by
      have := hdivp (p + 1) 0 (by omega)
      simpa using this
    have e2 : (p * (num_sats / num_planes)) / (num_sats / num_planes) = p := by
      have := hdivp p 0 (by omega)
      simpa using this
    rw [hclosed _ hb1, hclosed _ hb2, e1, e2]
    push_cast
    ring

/-- Witness for C3 at num_sats=6, num_planes=2 over the rationals. -/
theorem C3_witness :
    ((1 : ℕ) ≤ 6 ∧ (1 : ℕ) ≤ 2 ∧ 6 % 2 = 0 ∧ 6 / 2 ≤ 360) ∧
    (∃ c : Constellation ℚ,
      Constellation.make (0 : ℚ) (fun _ _ _ _ _ => (0, 0, 0))
          (fun _ _ _ => (0, 0)) 6 2 1 53 550 0 "det" = some c ∧
      c.satellites.length = 6 ∧
      (∀ p j j2, p < 2 → j < c.sats_per_plane → j2 < c.sats_per_plane →
        c.raan.getD (p * c.sats_per_plane + j) 0 =
          c.raan.getD (p * c.sats_per_plane + j2) 0) ∧
      (∀ p, p + 1 < 2 →
        c.raan.getD ((p + 1) * c.sats_per_plane) 0 =
          c.raan.getD (p * c.sats_per_plane) 0 + 360 / ((2 : ℕ) : ℚ))) :=
  ⟨⟨by norm_num, by norm_num, by norm_num, by norm_num⟩,
   C3_raan_structure (0 : ℚ) (fun _ _ _ _ _ => (0, 0, 0))
     (fun _ _ _ => (0, 0)) 6 2 1 53 550 0 "det" (by norm_num) (by norm_num)
     (by norm_num) (by norm_num)⟩

/-- C6 as frozen is false on the code: num_sats=723, num_planes=2 satisfy
num_planes >= 1, floor(num_sats/num_planes) = 361 >= 1 and
num_sats % num_planes /= 0, yet `int(360/361) = 0` makes `range(0, 360, 0)`
raise `ValueError`, so the Constellation builds nothing at all. -/
theorem C6_counterexample :
    Constellation.make (0 : ℚ) (fun _ _ _ _ _ => (0, 0, 0))
      (fun _ _ _ => (0, 0)) 723 2 1 53 550 0 "det" = none := rfl

/-- C6 (amended): for every num_planes >= 1 with
floor(num_sats/num_planes) >= 1, num_sats % num_planes /= 0 and additionally
floor(num_sats/num_planes) <= 360 (so the spacing step is nonzero and the
construction does not raise), the Constellation still builds exactly
num_sats satellites; the spacing table is computed from the truncated
per-plane count, the perigee table is that anchor list replicated num_sats
times - so entry i is the anchor at index i mod (anchor-list length),
wrapping around for the remainder satellites - and satellite i is built
from exactly that wrapped entry. -/
theorem C6_nondivisible_build {α : Type} [Field α] (piv : α)
    (with_altitude : α → α → α → α → α → α × α × α)
    (to_spherical : α → α → α → α × α)
    (num_sats num_planes : ℕ) (phasing inclination altitude eccentricity : α)
    (name : String)
    (h2 : 1 ≤ num_planes) (h1 : 1 ≤ num_sats / num_planes)
    (h3 : num_sats % num_planes ≠ 0) (h4 : num_sats / num_planes ≤ 360) :
    ∃ c : Constellation α,
      Constellation.make piv with_altitude to_spherical num_sats num_planes
          phasing inclination altitude eccentricity name = some c ∧
      c.sats_per_plane = num_sats / num_planes ∧
      c.satellites.length = num_sats ∧
      c.perigee_positions =
        (List.replicate num_sats
          (py_range 360 (360 / (num_sats / num_planes)))).flatten ∧
      (∀ i, i < num_sats →
        c.perigee_positions.getD i 0 =
          (py_range 360 (360 / (num_sats / num_planes))).getD
            (i % (py_range 360 (360 / (num_sats / num_planes))).length) 0) ∧
      (∀ k (hk2 : k < c.satellites.length),
        (c.satellites.get ⟨k, hk2⟩).perigee_r =
          ((c.perigee_positions.getD k 0 : ℕ) : α)) := by
  have h0 : num_sats ≠ 0 := by
    have := (Nat.one_le_div_iff (show 0 < num_planes by omega)).mp h1
    omega
  obtain ⟨c, hmk, hspp, hphase, hper, hraan, hta, hlen, hsat⟩ :=
    constellation_make_spec piv with_altitude to_spherical num_sats num_planes
      phasing inclination altitude eccentricity name h0 (by omega) h1 h4
  have hstep1 : 1 ≤ 360 / (num_sats / num_planes) :=
    (Nat.one_le_div_iff (by omega)).mpr h4
  have hlenp := py_range_length_pos _ hstep1
  refine ⟨c, hmk, hspp, hlen, hper, ?_, ?_⟩
  · intro i hi
    rw [hper]
    apply flatten_replicate_getD _ hlenp
    calc i < num_sats := hi
      _ = num_sats * 1 := (mul_one num_sats).symm
      _ ≤ num_sats * (py_range 360 (360 / (num_sats / num_planes))).length :=
          Nat.mul_le_mul_left _ hlenp
  · intro k hk2
    have h := hsat k hk2
    rw [satellite_make_earth_rads_true] at h
    rw [← Option.some.inj h]

/-- Witness for C6 at num_sats=7, num_planes=2 over the rationals. -/
theorem C6_witness :
    ((1 : ℕ) ≤ 2 ∧ (1 : ℕ) ≤ 7 / 2 ∧ 7 % 2 ≠ 0 ∧ 7 / 2 ≤ 360) ∧
    (∃ c : Constellation ℚ,
      Constellation.make (0 : ℚ) (fun _ _ _ _ _ => (0, 0, 0))
          (fun _ _ _ => (0, 0)) 7 2 1 53 550 0 "det" = some c ∧
      c.sats_per_plane = 7 / 2 ∧
      c.satellites.length = 7 ∧
      c.perigee_positions =
        (List.replicate 7 (py_range 360 (360 / (7 / 2)))).flatten ∧
      (∀ i, i < 7 →
        c.perigee_positions.getD i 0 =
          (py_range 360 (360 / (7 / 2))).getD
            (i % (py_range 360 (360 / (7 / 2))).length) 0) ∧
      (∀ k (hk2 : k < c.satellites.length),
        (c.satellites.get ⟨k, hk2⟩).perigee_r =
          ((c.perigee_positions.getD k 0 : ℕ) : ℚ))) :=
  ⟨⟨by norm_num, by norm_num, by norm_num, by norm_num⟩,
   C6_nondivisible_build (0 : ℚ) (fun _ _ _ _ _ => (0, 0, 0))
     (fun _ _ _ => (0, 0)) 7 2 1 53 550 0 "det" (by norm_num) (by norm_num)
     (by norm_num) (by norm_num)⟩

/-- C1 is a code bug: `_build_satellites` hands the degree-valued tables to
`Satellite` without passing `rads=False`, so with the default `rads=True`
the table values land in the radian attributes and the degree attributes
become table-value * 180/pi.  At the failing input
Constellation(num_sats=1, num_planes=1, phasing=0, inclination=53,
altitude=550, eccentricity=0) the single satellite is named "det1" as the
claim says, but its degree-valued inclination attribute is 53 * 180/pi,
which differs from the table value 53. -/
theorem C1_code_bug_eval :
    ∃ c : Constellation ℝ,
      Constellation.make Real.pi (fun _ _ _ _ _ => (0, 0, 0))
          (fun _ _ _ => (0, 0)) 1 1 0 53 550 0 "det" = some c ∧
      c.satellites.map (fun s => (s.name, s.inclination_r, s.inclination)) =
        [("det1", 53, 53 * (180 / Real.pi))] ∧
      (53 : ℝ) * (180 / Real.pi) ≠ 53 := by
  obtain ⟨c, hmk, hspp, hphase, hper, hraan, hta, hlen, hsat⟩ :=
    constellation_make_spec Real.pi (fun _ _ _ _ _ => (0, 0, 0))
      (fun _ _ _ => (0, 0)) 1 1 0 53 550 0 "det" (by norm_num) (by norm_num)
      (by norm_num) (by norm_num)
  refine ⟨c, hmk, ?_, ?_⟩
  · obtain ⟨a, ha⟩ := List.length_eq_one.mp hlen
    have h0 : (0 : ℕ) < c.satellites.length := by omega
    have hs := hsat 0 h0
    have hraan0 : c.raan.getD 0 0 = 0 := by
      rw [hraan, calculate_raan, plane_fold]
      norm_num [getD_replicate_zero]
    have hta0 : c.ta.getD 0 0 = 0 := by
      rw [hta, calculate_ta, plane_fold]
      norm_num [getD_replicate_zero]
    have hper0 : c.perigee_positions.getD 0 0 = 0 := by
      rw [hper]
      rfl
    rw [hraan0, hta0, hper0] at hs
    rw [satellite_make_earth_rads_true] at hs
    have hget : c.satellites.get ⟨0, h0⟩ = a := by
      simp [List.get_eq_getElem, ha]
    rw [hget] at hs
    have heq := Option.some.inj hs
    rw [ha, List.map_cons, List.map_nil, ← heq]
    norm_num
    rfl
  · have hpi := Real.pi_pos
    have hlt : Real.pi < 180 := lt_trans Real.pi_lt_d2 (by norm_num)
    have hgt : 1 < 180 / Real.pi := (one_lt_div hpi).mpr hlt
    intro hcontra
    nlinarith

/-- C5: in every constructed Satellite, whichever representation was given
to the constructor, each of the four angles satisfies
radians = degrees * pi/180, and equally degrees = radians * 180/pi, between
its stored degree and radian attributes. -/
theorem C5_degree_radian_invariant
    (with_altitude : ℝ → ℝ → ℝ → ℝ → ℝ → ℝ × ℝ × ℝ)
    (to_spherical : ℝ → ℝ → ℝ → ℝ × ℝ)
    (name : String)
    (altitude eccentricity inclination right_ascension perigee ta
      effective_area : ℝ) (focus : String) (rads : Bool) (s : Satellite ℝ)
    (h : Satellite.make Real.pi with_altitude to_spherical name altitude
        eccentricity inclination right_ascension perigee ta effective_area
        focus rads = some s) :
    (s.inclination_r = s.inclination * (Real.pi / 180) ∧
     s.inclination = s.inclination_r * (180 / Real.pi)) ∧
    (s.right_ascension_r = s.right_ascension * (Real.pi / 180) ∧
     s.right_ascension = s.right_ascension_r * (180 / Real.pi)) ∧
    (s.perigee_r = s.perigee * (Real.pi / 180) ∧
     s.perigee = s.perigee_r * (180 / Real.pi)) ∧
    (s.ta_r = s.ta * (Real.pi / 180) ∧
     s.ta = s.ta_r * (180 / Real.pi)) := by
  have key1 : ∀ x : ℝ, x * (Real.pi / 180) * (180 / Real.pi) = x := by
    intro x
    field_simp
  have key2 : ∀ x : ℝ, x * (180 / Real.pi) * (Real.pi / 180) = x := by
    intro x
    field_simp
  rcases hr : (heavenly_body_radius (str_lower focus) : Option ℝ)
    with _ | radius
  · rw [Satellite.make, hr] at h
    exact absurd h (by simp)
  · rw [Satellite.make, hr] at h
    cases rads
    · simp only [Bool.false_eq_true, if_false, Option.some.injEq,
        convert_to_rads] at h
      rw [← h]
      refine ⟨⟨rfl, (key1 _).symm⟩, ⟨rfl, (key1 _).symm⟩,
        ⟨rfl, (key1 _).symm⟩, ⟨rfl, (key1 _).symm⟩⟩
    · simp only [if_true, Option.some.injEq, convert_to_degs] at h
      rw [← h]
      refine ⟨⟨(key2 _).symm, rfl⟩, ⟨(key2 _).symm, rfl⟩,
        ⟨(key2 _).symm, rfl⟩, ⟨(key2 _).symm, rfl⟩⟩

/-- Witness for C5 at a concrete satellite built from degree-valued
angles. -/
theorem C5_witness :
    Satellite.make Real.pi (fun _ _ _ _ _ => ((0 : ℝ), 0, 0))
        (fun _ _ _ => ((0 : ℝ), 0)) "s1" 550 0 53 10 20 30 1 "earth" false =
      some ({ name := "s1", altitude := 550, eccentricity := 0,
              true_alt := 550 + 6371, effective_area := 1, focus := "earth",
              inclination := 53, right_ascension := 10, perigee := 20,
              ta := 30, inclination_r := 53 * (Real.pi / 180),
              right_ascension_r := 10 * (Real.pi / 180),
              perigee_r := 20 * (Real.pi / 180),
              ta_r := 30 * (Real.pi / 180), ra := 0, dec := 0,
              xyz := (0 / 1000, 0 / 1000, 0 / 1000) } : Satellite ℝ) ∧
    ((53 * (Real.pi / 180) = (53 : ℝ) * (Real.pi / 180) ∧
      (53 : ℝ) = 53 * (Real.pi / 180) * (180 / Real.pi)) ∧
     (10 * (Real.pi / 180) = (10 : ℝ) * (Real.pi / 180) ∧
      (10 : ℝ) = 10 * (Real.pi / 180) * (180 / Real.pi)) ∧
     (20 * (Real.pi / 180) = (20 : ℝ) * (Real.pi / 180) ∧
      (20 : ℝ) = 20 * (Real.pi / 180) * (180 / Real.pi)) ∧
     (30 * (Real.pi / 180) = (30 : ℝ) * (Real.pi / 180) ∧
      (30 : ℝ) = 30 * (Real.pi / 180) * (180 / Real.pi))) :=
  ⟨rfl,
   C5_degree_radian_invariant (fun _ _ _ _ _ => ((0 : ℝ), 0, 0))
     (fun _ _ _ => ((0 : ℝ), 0)) "s1" 550 0 53 10 20 30 1 "earth" false _ rfl⟩

end Pyipn
